import Mathlib

/-!
Verification development for the scenario-to-deployment compiler
(`generate_compose.py`) and the results-enrichment utility
(`enrich_results.py`).

The Python source is shallowly embedded: Python dicts become association
lists (`List (String × String)`), optional dict keys become `Option`,
`sys.exit(1)` failure paths become `Except` errors, and Python numeric
values (floats) are modelled as exact rationals `ℚ`.  Each definition is
translated from the corresponding function of the source; doc comments
name the source symbol.
-/

/-- Models Python `str.join`: `join_sep sep [a, b, c] = a ++ sep ++ b ++ sep ++ c`,
and `""` on the empty list. -/
def join_sep (sep : String) : List String → String
  | [] => ""
  | [x] => x
  | x :: y :: t => x ++ sep ++ join_sep sep (y :: t)

/-- Models Python `d.get(k, default)` on a dict represented as an
association list (keys pairwise distinct, insertion ordered). -/
def dict_getD {α : Type} (m : List (String × α)) (k : String) (dflt : α) : α :=
  match m.find? (fun kv => kv.1 == k) with
  | some kv => kv.2
  | none => dflt

/-- Models the Python dict-merge update `{**m, k: v}` (keys of a dict are
unique): an existing key keeps its position and gets the new value, a
fresh key is appended at the end. -/
def dict_set {α : Type} : List (String × α) → String → α → List (String × α)
  | [], k, v => [(k, v)]
  | kv :: t, k, v => if kv.1 == k then (k, v) :: t else kv :: dict_set t k v

/-- Models Python `str.startswith`. -/
def starts_with (s pre : String) : Bool :=
  pre.data.isPrefixOf s.data

/-- Models Python `str.endswith`. -/
def ends_with (s suf : String) : Bool :=
  suf.data.isSuffixOf s.data

/-- Models Python `s.rstrip("/")`: removes every trailing `/`. -/
def rstrip_slash (s : String) : String :=
  String.mk ((s.data.reverse.dropWhile (fun c => c = '/')).reverse)

/-- Characters CPython accepts inside a URL scheme (letters, digits, `+`, `-`, `.`). -/
def scheme_char (c : Char) : Bool :=
  c.isAlpha || c.isDigit || c == '+' || c == '-' || c == '.'

/-- Index of the first `:` in the list, if any. -/
def first_colon_idx : List Char → Option Nat
  | [] => none
  | c :: cs => if c = ':' then some 0 else (first_colon_idx cs).map (· + 1)

/-- Models the scheme-splitting step of CPython `urllib.parse.urlsplit`:
when the text before the first `:` is a well-formed scheme (first char a
letter, all chars scheme chars), the scheme and the colon are dropped. -/
def drop_scheme (cs : List Char) : List Char :=
  match first_colon_idx cs with
  | some i =>
      if 0 < i ∧ (cs.headD ' ').isAlpha ∧ (cs.take i).all scheme_char then
        cs.drop (i + 1)
      else cs
  | none => cs

/-- Models CPython `_splitnetloc`: after a leading `//`, the network
location extends up to the first `/`, `?` or `#` (which stays in the
remainder). -/
def drop_netloc : List Char → List Char
  | [] => []
  | c :: cs => if c = '/' ∨ c = '?' ∨ c = '#' then c :: cs else drop_netloc cs

/-- Prefix of the list strictly before the first occurrence of `d`. -/
def take_until (d : Char) : List Char → List Char
  | [] => []
  | c :: cs => if c = d then [] else c :: take_until d cs

/-- Models `urllib.parse.urlparse(u).path` (the `urlparse` call inside
`get_agent_base_path`): strip the scheme, then the `//netloc` part, then
the fragment (after `#`) and the query (after `?`); what remains is the
path component. -/
def urlparse_path (u : String) : String :=
  let cs := drop_scheme u.data
  let cs := match cs with
    | '/' :: '/' :: rest => drop_netloc rest
    | other => other
  String.mk (take_until '?' (take_until '#' cs))

/-- Embeds `get_agent_base_path` (generate_compose.py, lines 133-159).
`agent_name` is the optional explicit alias (`None`/empty string falsy);
`env` is the agent's environment dict.  Priority: explicit alias, then the
`CARD_URL` environment value (when non-empty and not an unresolved
`$\x7bNAME\x7d` placeholder), then the empty string. -/
def get_agent_base_path (agent_name : Option String) (env : List (String × String)) : String :=
  if agent_name.getD "" ≠ "" then
    "/a2a/" ++ agent_name.getD ""
  else if env ≠ [] then
    let card_url := dict_getD env "CARD_URL" ""
    if card_url ≠ "" ∧ starts_with card_url "$\x7b" = false then
      let path := rstrip_slash (urlparse_path card_url)
      if path ≠ "" then path else ""
    else ""
  else ""

/-- Embeds `get_health_check_path` (generate_compose.py, lines 162-168):
always the base path followed by `/.well-known/agent-card.json`. -/
def get_health_check_path (agent_name : Option String) (env : List (String × String)) : String :=
  get_agent_base_path agent_name env ++ "/.well-known/agent-card.json"

/-- Modelled from the spec (amended reading of the endpoint-path
precedence), environment part: the designated `CARD_URL` environment
entry, when present with a value that is not an unresolved placeholder and
whose URL path component (trailing slashes stripped) is non-empty, gives
that stripped path; otherwise the empty string.  Written from the spec's
words, to be compared with the source embedding `get_agent_base_path`. -/
def spec_base_path_from_env (env : List (String × String)) : String :=
  match env.find? (fun kv => kv.1 == "CARD_URL") with
  | some kv =>
      if kv.2 ≠ "" ∧ starts_with kv.2 "$\x7b" = false ∧
          rstrip_slash (urlparse_path kv.2) ≠ "" then
        rstrip_slash (urlparse_path kv.2)
      else ""
  | none => ""

/-- Modelled from the spec (amended reading of the endpoint-path
precedence): first the explicit alias, otherwise the `CARD_URL` rule of
`spec_base_path_from_env`, otherwise the empty string. -/
def spec_base_path (agent_name : Option String) (env : List (String × String)) : String :=
  match agent_name with
  | some a =>
      if a = "" then spec_base_path_from_env env else "/a2a/" ++ a
  | none => spec_base_path_from_env env

/-- One agent entry of the scenario: the relevant keys of the TOML dict.
`image` and `agentbeats_id` are `some _` exactly when the key is present
in the scenario file (`"image" in agent` / `"agentbeats_id" in agent`). -/
structure Agent where
  name : String
  agent_name : Option String
  env : List (String × String)
  image : Option String
  agentbeats_id : Option String
deriving DecidableEq, Repr

/-- The parsed scenario: the `green_agent` table and the ordered
`participants` list.  The opaque `config` table is passed through
verbatim by the renderer (serialized by the TOML library collaborator)
and carries no agent-derived data, so it is not modelled. -/
structure ScenarioData where
  green_agent : Agent
  participants : List Agent
deriving DecidableEq, Repr

/-- The failure exits of `generate_compose.py`, one constructor per
`sys.exit(1)` site reachable from `parse_scenario` (each a distinct
reason, reported by `print` of `ResolveError.message`). -/
inductive ResolveError where
  | both_fields (agent_label : String)
  | neither_field (agent_label : String)
  | gha_direct_image (agent_label : String)
  | duplicate_names (names : List String)
  | fetch_failed (agentbeats_id : String) (msg : String)
deriving DecidableEq, Repr

/-- The error text printed at each failure exit (apostrophes written as
the escape `\x27`). -/
def ResolveError.message : ResolveError → String
  | .both_fields n =>
      "Error: " ++ n ++ " has both \x27image\x27 and \x27agentbeats_id\x27 - use one or the other"
  | .neither_field n =>
      "Error: " ++ n ++ " must have either \x27image\x27 or \x27agentbeats_id\x27 field"
  | .gha_direct_image n =>
      "Error: " ++ n ++ " requires \x27agentbeats_id\x27 for GitHub Actions (use \x27image\x27 for local testing only)"
  | .duplicate_names ds =>
      "Error: Duplicate participant names found: " ++ join_sep ", " ds
  | .fetch_failed _ m => m

/-- Embeds `resolve_image` (generate_compose.py, lines 189-221) as a pure
function.  `gha` models the truthiness of `os.environ.get("GITHUB_ACTIONS")`;
`lookup` models the `fetch_agent_info` collaborator (`info["docker_image"]`
on success, a fatal fetch error otherwise); the returned string is the
resolved image reference. -/
def resolve_image (gha : Bool) (lookup : String → Except String String)
    (image : Option String) (abid : Option String) (label : String) :
    Except ResolveError String :=
  match image, abid with
  | some _, some _ => .error (.both_fields label)
  | none, none => .error (.neither_field label)
  | some img, none =>
      if gha then .error (.gha_direct_image label) else .ok img
  | none, some i =>
      match lookup i with
      | .ok docker_image => .ok docker_image
      | .error m => .error (.fetch_failed i m)

/-- The in-place update `agent["image"] = ...` of `resolve_image`,
modelled functionally: the agent with its resolved image stored. -/
def resolve_agent (gha : Bool) (lookup : String → Except String String)
    (a : Agent) (label : String) : Except ResolveError Agent :=
  match resolve_image gha lookup a.image a.agentbeats_id label with
  | .ok img => .ok { a with image := some img }
  | .error e => .error e

/-- Embeds the duplicate computation of `parse_scenario` (lines 248-249):
`[name for name in set(names) if names.count(name) > 1]` (the set is
modelled as `dedup`; the properties proved below do not depend on the
iteration order CPython happens to use). -/
def duplicated_names (names : List String) : List String :=
  names.dedup.filter (fun n => decide (1 < names.count n))

/-- Embeds `parse_scenario` (generate_compose.py, lines 225-259): resolve
the green agent's image, reject duplicate participant names, then resolve
every participant's image, in source order. -/
def parse_scenario_data (gha : Bool) (lookup : String → Except String String)
    (d : ScenarioData) : Except ResolveError ScenarioData := do
  let g ← resolve_agent gha lookup d.green_agent "green_agent"
  let names := d.participants.map (fun p => p.name)
  let dups := duplicated_names names
  if dups ≠ [] then throw (ResolveError.duplicate_names dups)
  let ps ← d.participants.mapM
    (fun p => resolve_agent gha lookup p ("participant \x27" ++ p.name ++ "\x27"))
  pure { green_agent := g, participants := ps }

/-- The shared fixed network port (`DEFAULT_PORT = 9009`). -/
def DEFAULT_PORT : Nat := 9009

/-- `DEFAULT_ENV_VARS = {"PYTHONUNBUFFERED": "1"}`. -/
def DEFAULT_ENV_VARS : List (String × String) := [("PYTHONUNBUFFERED", "1")]

/-- The coordinator's implicit fixed service name: the literal
`green-agent` used for `container_name`, the compose service key, the
client's dependency list and the injected self address. -/
def green_service_name : String := "green-agent"

/-- Models the Python dict merge `{**a, **b}` by folding `dict_set`. -/
def dict_merge (a b : List (String × String)) : List (String × String) :=
  b.foldl (fun acc kv => dict_set acc kv.1 kv.2) a

/-- The escaping inside `format_env_vars`:
`str_value.replace('\\', '\\\\').replace('"', '\\"')` (the two sequential
single-character replacements act independently, hence one pass). -/
def escape_env_value (v : String) : String :=
  String.mk (v.data.flatMap (fun c =>
    if c = '\\' then ['\\', '\\'] else if c = '"' then ['\\', '"'] else [c]))

/-- Embeds `format_env_vars` (lines 262-276): merge `DEFAULT_ENV_VARS`
under the agent's dict, then render one `      KEY: "value"` line per
entry, preceded by a newline. -/
def format_env_vars (env : List (String × String)) : String :=
  let env_vars := dict_merge DEFAULT_ENV_VARS env
  "\n" ++ join_sep "\n"
    (env_vars.map (fun kv => "      " ++ kv.1 ++ ": \"" ++ escape_env_value kv.2 ++ "\""))

/-- One rendered dependency of `format_depends_on`: the service name with
its `service_healthy` condition. -/
def depends_entry (service : String) : String :=
  "      " ++ service ++ ":\n        condition: service_healthy"

/-- Embeds `format_depends_on` (lines 279-291): empty for no services,
else a newline followed by one healthy-conditioned entry per service. -/
def format_depends_on (services : List String) : String :=
  if services = [] then ""
  else "\n" ++ join_sep "\n" (services.map depends_entry)

/-- Embeds `get_pull_policy` (lines 171-186). -/
def get_pull_policy (image : String) : String :=
  if ends_with image ":local" then "    pull_policy: never\n"
  else "    platform: linux/amd64\n"

/-- The `p["image"]` access of the renderer (the key is always present
after resolution; absent is modelled as `""`). -/
def image_of (a : Agent) : String := a.image.getD ""

/-- The injected self address of the green agent:
`f"http://green-agent:\x7bDEFAULT_PORT\x7d"`. -/
def green_self_url : String :=
  "http://" ++ green_service_name ++ ":" ++ toString DEFAULT_PORT

/-- The overlay `green_env` merging the declared dict with the injected
self address (`CARD_URL` set last, so it wins)
(generate_docker_compose, line 311): the declared dict merged with the
injected self address. -/
def green_env_overlay (g : Agent) : List (String × String) :=
  dict_set g.env "CARD_URL" green_self_url

/-- The participant overlay
merging the declared dict with the injected per-participant
self address `http://NAME:PORT` (line 319). -/
def participant_env_overlay (p : Agent) : List (String × String) :=
  dict_set p.env "CARD_URL" ("http://" ++ p.name ++ ":" ++ toString DEFAULT_PORT)

/-- `green_health_path` as computed in `generate_docker_compose`
(line 312): from the explicit alias and the injected overlay. -/
def green_health_path (g : Agent) : String :=
  get_health_check_path g.agent_name (green_env_overlay g)

/-- Each participant's compose health path (line 320): from the explicit
alias and the declared (pre-injection) environment. -/
def participant_health_path (p : Agent) : String :=
  get_health_check_path p.agent_name p.env

/-- `green_a2a_path` as computed in `generate_a2a_scenario` (line 353):
from the alias and the declared environment. -/
def green_a2a_path (g : Agent) : String :=
  get_agent_base_path g.agent_name g.env

/-- Each participant's routing base path (line 357): from the alias and
the declared environment. -/
def participant_a2a_path (p : Agent) : String :=
  get_agent_base_path p.agent_name p.env

/-- Models the regex scan
`re.compile(r'\$\\x7b([^\x7d]+)\\x7d').findall(value)` of
`generate_env_file` as a left-to-right single pass: outside a placeholder
(`state = none`) a literal `$` followed by an opening brace enters a
placeholder; inside (`state = some acc`) characters other than the closing
brace accumulate; a closing brace emits the (non-empty) captured name.
A failed match (empty capture or unclosed brace) matches nothing, exactly
as the regex, which finds no later match inside such a region either. -/
def scan_placeholders_aux : Option (List Char) → List Char → List String
  | none, [] => []
  | none, '$' :: '\x7b' :: rest => scan_placeholders_aux (some []) rest
  | none, _ :: rest => scan_placeholders_aux none rest
  | some _, [] => []
  | some acc, '\x7d' :: rest =>
      if acc = [] then scan_placeholders_aux none rest
      else String.mk acc.reverse :: scan_placeholders_aux none rest
  | some acc, c :: rest => scan_placeholders_aux (some (c :: acc)) rest

/-- The placeholder names found in one string value, in match order. -/
def scan_placeholders (v : String) : List String :=
  scan_placeholders_aux none v.data

/-- The multiset of placeholder names over every agent's declared
environment values (`for agent in all_agents: for value in
agent.get("env", {}).values(): secrets.update(...)` in
`generate_env_file`, lines 392-395); deduplication happens afterwards. -/
def all_placeholder_names (d : ScenarioData) : List String :=
  (d.green_agent :: d.participants).flatMap
    (fun a => a.env.flatMap (fun kv => scan_placeholders kv.2))

/-- Lexicographic comparison of character lists by code point: the empty
list precedes everything, otherwise the heads decide, ties recurse.  This
is exactly how Python compares strings. -/
def chars_le : List Char → List Char → Bool
  | [], _ => true
  | _ :: _, [] => false
  | a :: as, b :: bs => if a < b then true else if a = b then chars_le as bs else false

/-- Code-point lexicographic order on strings (Python string `<=`). -/
def lex_le (a b : String) : Prop := chars_le a.data b.data = true

instance : DecidableRel lex_le :=
  fun a b => inferInstanceAs (Decidable (chars_le a.data b.data = true))

/-- Models Python `sorted` on strings (lexicographic by code point). -/
def sorted_strings (l : List String) : List String :=
  l.insertionSort lex_le

/-- Embeds `generate_env_file` (generate_compose.py, lines 377-400): the
distinct placeholder names, sorted, one `NAME=` line each followed by a
final newline; the empty string when no placeholder occurs anywhere. -/
def generate_env_file (d : ScenarioData) : String :=
  let secrets := sorted_strings (all_placeholder_names d).dedup
  if secrets = [] then ""
  else join_sep "\n" (secrets.map (fun s => s ++ "=")) ++ "\n"

/-- Models the write guard in `main` (lines 420-423): the `.env.example`
artifact file is produced exactly when `generate_env_file` returned
non-empty text. -/
def env_file_written (d : ScenarioData) : Bool :=
  !(generate_env_file d == "")

/-- Fixed literal pieces of `PARTICIPANT_TEMPLATE` (lines 110-123), in
template order; `participant_block` interleaves them with the computed
fields.  The template declares no `depends_on` key. -/
def pseg_after_name : String := ":\n    image: "

/-- Literal between the pull-policy line and the participant name. -/
def pseg_container : String := "    container_name: "

/-- Literal between the container name and the port. -/
def pseg_command : String := "\n    command: [\"--host\", \"0.0.0.0\", \"--port\", \""

/-- Literal between the port and the rendered environment block. -/
def pseg_env : String := "\"]\n    environment:"

/-- Literal between the environment block and the health-check URL. -/
def pseg_health : String :=
  "\n    healthcheck:\n      test: [\"CMD\", \"curl\", \"-f\", \"http://localhost:"

/-- Literal tail of the participant template (health-check policy
constants and network membership). -/
def pseg_tail : String :=
  "\"]\n      interval: 5s\n      timeout: 3s\n      retries: 10\n      start_period: 30s\n    networks:\n      - agent-network\n"

/-- One participant service block:
`PARTICIPANT_TEMPLATE.format(...)` with the arguments computed in
`generate_docker_compose` (lines 314-324). -/
def participant_block (p : Agent) : String :=
  "  " ++ p.name ++ pseg_after_name ++ image_of p ++ "\n" ++
  get_pull_policy (image_of p) ++
  pseg_container ++ p.name ++ pseg_command ++ toString DEFAULT_PORT ++
  pseg_env ++ format_env_vars (participant_env_overlay p) ++
  pseg_health ++ toString DEFAULT_PORT ++ participant_health_path p ++
  pseg_tail

/-- The green agent's dependency block:
`green_depends=format_depends_on(participant_names)` (line 331). -/
def compose_green_depends (d : ScenarioData) : String :=
  format_depends_on (d.participants.map (fun p => p.name))

/-- The client's dependency block:
`client_depends=format_depends_on(["green-agent"] + participant_names)`
(line 333). -/
def compose_client_depends (d : ScenarioData) : String :=
  format_depends_on (green_service_name :: d.participants.map (fun p => p.name))

/-- Embeds `generate_docker_compose` (lines 294-335):
`COMPOSE_TEMPLATE.format(...)` with the computed green fields, the joined
participant blocks and the two dependency blocks. -/
def generate_docker_compose (d : ScenarioData) : String :=
  "# Auto-generated from scenario.toml\n\nservices:\n  green-agent:\n    image: " ++
  image_of d.green_agent ++ "\n" ++
  get_pull_policy (image_of d.green_agent) ++
  "    container_name: green-agent\n    command: [\"--host\", \"0.0.0.0\", \"--port\", \"" ++
  toString DEFAULT_PORT ++
  "\"]\n    env_file:\n      - .env\n    environment:" ++
  format_env_vars (green_env_overlay d.green_agent) ++
  "\n    healthcheck:\n      test: [\"CMD\", \"curl\", \"-f\", \"http://localhost:" ++
  toString DEFAULT_PORT ++ green_health_path d.green_agent ++
  "\"]\n      interval: 5s\n      timeout: 3s\n      retries: 10\n      start_period: 30s\n    depends_on:" ++
  compose_green_depends d ++
  "\n    networks:\n      - agent-network\n\n" ++
  join_sep "\n" (d.participants.map participant_block) ++
  "\n  agentbeats-client:\n    image: ghcr.io/agentbeats/agentbeats-client:v1.0.0\n    platform: linux/amd64\n    container_name: agentbeats-client\n    configs:\n      - source: scenario\n        target: /app/scenario.toml\n    volumes:\n      - ./output:/app/output\n    command: [\"scenario.toml\", \"output/results.json\"]\n    depends_on:" ++
  compose_client_depends d ++
  "\n    networks:\n      - agent-network\n\nconfigs:\n  scenario:\n    file: ./a2a-scenario.toml\n\nnetworks:\n  agent-network:\n    driver: bridge\n"

/-- The green endpoint value rendered into the routing manifest
(`a2a-scenario.toml`, lines 126-130 and 353): container hostname, shared
port and the declared-environment base path. -/
def a2a_green_endpoint (d : ScenarioData) : String :=
  "http://" ++ green_service_name ++ ":" ++ toString DEFAULT_PORT ++
  green_a2a_path d.green_agent

/-- One `[[participants]]` block of the routing manifest
(`generate_a2a_scenario`, lines 355-365): role name, endpoint with the
declared-environment base path, and the catalog id when present. -/
def a2a_participant_block (p : Agent) : String :=
  "[[participants]]\nrole = \"" ++ p.name ++ "\"\nendpoint = \"http://" ++
  p.name ++ ":" ++ toString DEFAULT_PORT ++ participant_a2a_path p ++ "\"" ++
  (match p.agentbeats_id with
   | some i => "\nagentbeats_id = \"" ++ i ++ "\""
   | none => "") ++ "\n"

/-- The agent-derived part of the routing manifest (the opaque `config`
section that `tomli_w.dumps` appends afterwards carries no agent data). -/
def a2a_endpoints_text (d : ScenarioData) : String :=
  "[green_agent]\nendpoint = \"" ++ a2a_green_endpoint d ++ "\"\n\n" ++
  join_sep "\n" (d.participants.map a2a_participant_block) ++ "\n"

/-- Models the rendering phase of `main` (lines 414-423): all three
artifacts are produced from the resolved scenario, which is only read —
the second component is the scenario state after rendering.  The Python
rendering functions build fresh dicts (`{**env, "CARD_URL": ...}`) and
never assign into the scenario, so the state passes through unchanged. -/
def render_artifacts (d : ScenarioData) : (String × String × String) × ScenarioData :=
  ((generate_docker_compose d, a2a_endpoints_text d, generate_env_file d), d)

/-- One task outcome of the results document
(`enrich_results.py`): `task_id` and `reward` keys, each possibly absent
(`result.get("task_id", "")` / `result.get("reward", 0)`).  Numeric
values are modelled as exact rationals. -/
structure TaskResult where
  task_id : Option String
  reward : Option ℚ
deriving DecidableEq

/-- The loop body of `compute_avg_difficulty` (lines 53-60): a passed
task (reward strictly positive) adds `1` to the accumulated
`total_weight` and its difficulty to the accumulated `weighted_sum`. -/
def pass_step (m : List (String × ℚ)) (default_difficulty : ℚ)
    (acc : ℚ × ℚ) (r : TaskResult) : ℚ × ℚ :=
  if 0 < r.reward.getD 0 then
    (acc.1 + 1, acc.2 + dict_getD m (r.task_id.getD "") default_difficulty)
  else acc

/-- Embeds `compute_avg_difficulty` (enrich_results.py, lines 35-62):
fold the outcomes, then `weighted_sum / total_weight` when some task
passed, else `0.0`. -/
def compute_avg_difficulty (task_results : List TaskResult)
    (m : List (String × ℚ)) (default_difficulty : ℚ) : ℚ :=
  let tw_ws := task_results.foldl (pass_step m default_difficulty) (0, 0)
  if 0 < tw_ws.1 then tw_ws.2 / tw_ws.1 else 0

/-- A task outcome counts as passed when its recorded reward is strictly
positive (`if reward > 0` in the source). -/
def passed (r : TaskResult) : Bool :=
  decide (0 < r.reward.getD 0)

/-- The difficulty the source attributes to one outcome:
`task_difficulty_map.get(task_id, default_difficulty)`. -/
def difficulty_of (m : List (String × ℚ)) (default_difficulty : ℚ)
    (r : TaskResult) : ℚ :=
  dict_getD m (r.task_id.getD "") default_difficulty

/-- Substring test on character lists (used to state that the fixed
participant-template text declares no `depends_on` key). -/
def contains_sub (pat : List Char) : List Char → Bool
  | [] => pat.isEmpty
  | l@(_ :: rest) => pat.isPrefixOf l || contains_sub pat rest

theorem str_append_assoc (a b c : String) : a ++ b ++ c = a ++ (b ++ c) := by
  apply String.ext
  simp [String.data_append, List.append_assoc]

theorem str_join_nil : String.join ([] : List String) = "" := rfl

theorem str_join_cons (s : String) (l : List String) :
    String.join (s :: l) = s ++ String.join l := by
  apply String.ext
  simp [String.join_eq, String.data_append]

theorem base_path_env_eq (env : List (String × String)) :
    get_agent_base_path none env = spec_base_path_from_env env := by
  unfold get_agent_base_path spec_base_path_from_env dict_getD
  cases env with
  | nil => rfl
  | cons kv t =>
    simp only [Option.getD_none, ne_eq, not_true_eq_false, reduceIte]
    cases hf : List.find? (fun kv => kv.1 == "CARD_URL") (kv :: t) with
    | none => simp [hf]
    | some kv2 =>
      simp only [hf]
      by_cases h1 : kv2.2 = ""
      · simp [h1]
      · by_cases h2 : starts_with kv2.2 "$\x7b" = false
        · by_cases h3 : rstrip_slash (urlparse_path kv2.2) = ""
          · simp [h1, h2, h3]
          · simp [h1, h2, h3]
        · simp [h1, h2]

theorem base_path_some_empty (env : List (String × String)) :
    get_agent_base_path (some "") env = get_agent_base_path none env := by
  unfold get_agent_base_path
  simp

/-- C1 counterexample: the claim reads the environment rule as "any key
whose value is a fully-formed URL".  With no alias and an environment
whose only entry is the key `FOO` holding the URL `http://x/bar` (not a
`$\x7b` placeholder, with non-empty stripped path `/bar`), the claim
demands base path `/bar`, but `get_agent_base_path` consults only the
`CARD_URL` key and returns the empty string. -/
theorem C1_counterexample :
    get_agent_base_path none [("FOO", "http://x/bar")] = "" ∧
    starts_with "http://x/bar" "$\x7b" = false ∧
    rstrip_slash (urlparse_path "http://x/bar") = "/bar" ∧
    ("/bar" : String) ≠ "" := by
  refine ⟨rfl, rfl, ?_, by decide⟩
  decide

/-- C1 (amended): the resolved base path follows the fixed first-match
precedence with the environment rule restricted to the designated
`CARD_URL` key: a non-empty explicit alias gives `/a2a/` + alias;
otherwise, when the `CARD_URL` environment value is non-empty, does not
begin with an unresolved `$\x7b` placeholder, and its URL path component
with trailing slashes stripped is non-empty, that stripped path is the
base path; otherwise the base path is the empty string.  The spec's three
worked examples are included as instances. -/
theorem C1_base_path_precedence :
    (∀ (an : Option String) (env : List (String × String)),
      get_agent_base_path an env = spec_base_path an env) ∧
    get_agent_base_path (some "foo") [("CARD_URL", "http://x/bar/")] = "/a2a/foo" ∧
    get_agent_base_path none [("CARD_URL", "http://x/bar/")] = "/bar" ∧
    get_agent_base_path none [] = "" ∧
    get_health_check_path none [] = "/.well-known/agent-card.json" := by
  refine ⟨?_, by decide, by decide, rfl, rfl⟩
  intro an env
  cases an with
  | none => exact base_path_env_eq env
  | some a =>
    by_cases ha : a = ""
    · subst ha
      rw [base_path_some_empty]
      simpa [spec_base_path] using base_path_env_eq env
    · unfold get_agent_base_path spec_base_path
      simp [ha]

/-- C2 counterexample: a coordinator with no alias whose declared
environment sets `CARD_URL` to `http://x/bar/`.  The orchestration
manifest's health path is computed from the environment after
self-address injection (which overrides `CARD_URL` with
`http://green-agent:9009`, whose URL path is empty), giving
`/.well-known/agent-card.json`; the routing manifest's base path is
computed from the declared environment, giving `/bar`, so the rendered
health path differs from base path + `/.well-known/agent-card.json`. -/
theorem C2_counterexample :
    green_health_path ⟨"g", none, [("CARD_URL", "http://x/bar/")], some "i", none⟩ ≠
      green_a2a_path ⟨"g", none, [("CARD_URL", "http://x/bar/")], some "i", none⟩ ++
        "/.well-known/agent-card.json" := by
  decide

/-- C2 (amended): the health path is always the base path of the
environment it is computed from, concatenated with
`/.well-known/agent-card.json`, and is never independently configurable.
For every participant the orchestration manifest's health path uses the
declared environment, so it equals the routing manifest's base path plus
the suffix; for the coordinator the health path uses the environment
after self-address injection (`CARD_URL` overridden), which can differ
from the routing manifest's declared-environment base path. -/
theorem C2_health_path_derivation :
    (∀ (an : Option String) (env : List (String × String)),
        get_health_check_path an env =
          get_agent_base_path an env ++ "/.well-known/agent-card.json") ∧
    (∀ p : Agent, participant_health_path p =
        participant_a2a_path p ++ "/.well-known/agent-card.json") ∧
    (∀ g : Agent, green_health_path g =
        get_agent_base_path g.agent_name (green_env_overlay g) ++
          "/.well-known/agent-card.json") :=
  ⟨fun _ _ => rfl, fun _ => rfl, fun _ => rfl⟩

/-- C3: with exactly one of the direct image reference and the catalog id
present, `resolve_image` never fails for the both-or-neither reason
(whatever error it may return — restricted-context or lookup failure — is
neither the both-fields nor the neither-field error); with both present,
or with neither present, it always fails with the corresponding
configuration error, whose message names the offending agent. -/
theorem C3_identity_exclusive :
    ∀ (gha : Bool) (lookup : String → Except String String)
      (image abid : Option String) (label : String),
      (image.isSome = true ∧ abid.isSome = true →
        resolve_image gha lookup image abid label =
          .error (.both_fields label) ∧
        ∃ pre post, (ResolveError.both_fields label).message = pre ++ label ++ post) ∧
      (image.isSome = false ∧ abid.isSome = false →
        resolve_image gha lookup image abid label =
          .error (.neither_field label) ∧
        ∃ pre post, (ResolveError.neither_field label).message = pre ++ label ++ post) ∧
      (image.isSome ≠ abid.isSome →
        ∀ e, resolve_image gha lookup image abid label = .error e →
          (∀ n, e ≠ .both_fields n) ∧ (∀ n, e ≠ .neither_field n)) := by
  intro gha lookup image abid label
  refine ⟨?_, ?_, ?_⟩
  · rintro ⟨h1, h2⟩
    cases image with
    | none => simp at h1
    | some img =>
      cases abid with
      | none => simp at h2
      | some i =>
        exact ⟨rfl, "Error: ",
          " has both \x27image\x27 and \x27agentbeats_id\x27 - use one or the other", rfl⟩
  · rintro ⟨h1, h2⟩
    cases image with
    | some img => simp at h1
    | none =>
      cases abid with
      | some i => simp at h2
      | none =>
        exact ⟨rfl, "Error: ",
          " must have either \x27image\x27 or \x27agentbeats_id\x27 field", rfl⟩
  · intro hne e he
    cases image with
    | some img =>
      cases abid with
      | some i => simp at hne
      | none =>
        unfold resolve_image at he
        by_cases hg : gha
        · simp [hg] at he
          subst he
          exact ⟨fun n => by simp, fun n => by simp⟩
        · simp [hg] at he
    | none =>
      cases abid with
      | none => simp at hne
      | some i =>
        unfold resolve_image at he
        cases hl : lookup i with
        | ok v => simp [hl] at he
        | error m =>
          simp [hl] at he
          subst he
          exact ⟨fun n => by simp, fun n => by simp⟩

/-- C3 witness: a both-fields agent fails with the both-fields error
naming it, and the restricted-context error of an exactly-one agent is
not a both-fields error. -/
theorem C3_identity_exclusive_witness :
    resolve_image false (fun i => Except.ok i) (some "img:local") (some "abc") "green_agent" =
      Except.error (ResolveError.both_fields "green_agent") ∧
    ResolveError.gha_direct_image "green_agent" ≠ ResolveError.both_fields "p" := by
  constructor
  · exact ((C3_identity_exclusive false (fun i => Except.ok i) (some "img:local") (some "abc")
      "green_agent").1 ⟨rfl, rfl⟩).1
  · exact (((C3_identity_exclusive true (fun i => Except.ok i) (some "img")
      none "green_agent").2.2 (by decide) (ResolveError.gha_direct_image "green_agent") rfl).1 "p")

theorem duplicated_names_nil_iff (names : List String) :
    duplicated_names names = [] ↔ names.Nodup := by
  unfold duplicated_names
  rw [List.filter_eq_nil_iff]
  constructor
  · intro h
    rw [List.nodup_iff_count_le_one]
    intro a
    by_contra hc
    push_neg at hc
    have ha : a ∈ names := by
      have : 0 < names.count a := by omega
      exact List.count_pos_iff.mp this
    have := h a (List.mem_dedup.mpr ha)
    simp at this
    omega
  · intro h n _
    have := List.nodup_iff_count_le_one.mp h n
    simp
    omega

/-- C4 counterexample: a scenario whose single participant is named
`green-agent`, the coordinator's implicit fixed service name.  Two agents
of the scenario therefore carry the same name, yet `parse_scenario`
validates it successfully — only participant-versus-participant
duplicates are checked. -/
theorem C4_counterexample :
    (parse_scenario_data false (fun i => Except.ok i)
        ⟨⟨"g", none, [], some "green:local", none⟩,
         [⟨"green-agent", none, [], some "p:v1", none⟩]⟩).isOk = true ∧
    (⟨"green-agent", none, [], some "p:v1", none⟩ : Agent).name = green_service_name := by
  decide

/-- C4 (amended): validation enforces pairwise-distinct (case-sensitive)
names among the participants only: every scenario that passes validation
has pairwise-distinct participant names, and duplicated participant names
are always rejected; a participant may share the coordinator's implicit
fixed name `green-agent` without a validation error. -/
theorem C4_participant_name_uniqueness :
    ∀ (gha : Bool) (lookup : String → Except String String) (d r : ScenarioData),
      parse_scenario_data gha lookup d = .ok r →
      (d.participants.map (fun p => p.name)).Nodup := by
  intro gha lookup d r h
  unfold parse_scenario_data at h
  cases hg : resolve_agent gha lookup d.green_agent "green_agent" with
  | error e => simp [hg, Bind.bind, Except.bind] at h
  | ok g =>
    rw [hg] at h
    by_cases hd : duplicated_names (d.participants.map (fun p => p.name)) = []
    · exact (duplicated_names_nil_iff _).mp hd
    · simp [Bind.bind, Except.bind, hd, throw, throwThe, MonadExceptOf.throw] at h

/-- C4 witness: a validated scenario with two distinctly named
participants has pairwise-distinct participant names. -/
theorem C4_participant_name_uniqueness_witness :
    ((⟨⟨"g", none, [], some "green:local", none⟩,
       [⟨"p1", none, [], some "a:v", none⟩, ⟨"p2", none, [], some "b:v", none⟩]⟩ :
        ScenarioData).participants.map (fun p => p.name)).Nodup := by
  exact C4_participant_name_uniqueness false (fun i => Except.ok i)
    ⟨⟨"g", none, [], some "green:local", none⟩,
     [⟨"p1", none, [], some "a:v", none⟩, ⟨"p2", none, [], some "b:v", none⟩]⟩
    ⟨⟨"g", none, [], some "green:local", none⟩,
     [⟨"p1", none, [], some "a:v", none⟩, ⟨"p2", none, [], some "b:v", none⟩]⟩
    rfl

theorem mem_duplicated_names_iff (names : List String) (n : String) :
    n ∈ duplicated_names names ↔ 1 < names.count n := by
  unfold duplicated_names
  rw [List.mem_filter, List.mem_dedup]
  constructor
  · rintro ⟨-, h⟩
    simpa using h
  · intro h
    refine ⟨List.count_pos_iff.mp (by omega), by simpa using h⟩

/-- C5: with at least one duplicated participant name, validation never
succeeds; as soon as the coordinator's own resolution step passes,
`parse_scenario` fails with the duplicate-names configuration error, and
the name list carried by that error (joined into its message by
`ResolveError.message`) contains a name if and only if that name occurs
more than once among the participants, each such name exactly once
(the list has no duplicates). -/
theorem C5_duplicate_reporting :
    ∀ (gha : Bool) (lookup : String → Except String String) (d : ScenarioData),
      ¬ (d.participants.map (fun p => p.name)).Nodup →
      (∀ r, parse_scenario_data gha lookup d ≠ .ok r) ∧
      ((resolve_agent gha lookup d.green_agent "green_agent").isOk = true →
        parse_scenario_data gha lookup d =
          .error (.duplicate_names
            (duplicated_names (d.participants.map (fun p => p.name))))) ∧
      (∀ n, n ∈ duplicated_names (d.participants.map (fun p => p.name)) ↔
        1 < (d.participants.map (fun p => p.name)).count n) ∧
      (duplicated_names (d.participants.map (fun p => p.name))).Nodup := by
  intro gha lookup d hnd
  have hdups : duplicated_names (d.participants.map (fun p => p.name)) ≠ [] := by
    intro h
    exact hnd ((duplicated_names_nil_iff _).mp h)
  refine ⟨?_, ?_, fun n => mem_duplicated_names_iff _ n, (List.nodup_dedup _).filter _⟩
  · intro r h
    unfold parse_scenario_data at h
    cases hg : resolve_agent gha lookup d.green_agent "green_agent" with
    | error e => simp [hg, Bind.bind, Except.bind] at h
    | ok g =>
      rw [hg] at h
      simp [Bind.bind, Except.bind, hdups, throw, throwThe, MonadExceptOf.throw] at h
  · intro hok
    unfold parse_scenario_data
    cases hg : resolve_agent gha lookup d.green_agent "green_agent" with
    | error e => rw [hg] at hok; simp [Except.isOk, Except.toBool] at hok
    | ok g =>
      simp [Bind.bind, Except.bind, hdups, throw, throwThe, MonadExceptOf.throw]

/-- C5 witness: two participants both named `judge` (and a third distinct
one) make validation fail with the duplicate-names error listing `judge`
exactly once. -/
theorem C5_duplicate_reporting_witness :
    parse_scenario_data false (fun i => Except.ok i)
        ⟨⟨"g", none, [], some "green:local", none⟩,
         [⟨"judge", none, [], some "a:v", none⟩, ⟨"judge", none, [], some "b:v", none⟩,
          ⟨"other", none, [], some "c:v", none⟩]⟩ =
      Except.error (ResolveError.duplicate_names ["judge"]) := by
  have h := (C5_duplicate_reporting false (fun i => Except.ok i)
    ⟨⟨"g", none, [], some "green:local", none⟩,
     [⟨"judge", none, [], some "a:v", none⟩, ⟨"judge", none, [], some "b:v", none⟩,
      ⟨"other", none, [], some "c:v", none⟩]⟩ (by decide)).2.1 (by decide)
  rw [h]
  rfl

theorem chars_le_total : ∀ l m : List Char, chars_le l m = true ∨ chars_le m l = true := by
  intro l
  induction l with
  | nil => intro m; left; rfl
  | cons a as ih =>
    intro m
    cases m with
    | nil => right; rfl
    | cons b bs =>
      by_cases hab : a < b
      · left; simp [chars_le, hab]
      · by_cases heq : a = b
        · subst heq
          rcases ih bs with h | h
          · left; simp [chars_le, h]
          · right; simp [chars_le, h]
        · have hba : b < a := by
            rcases lt_trichotomy a b with h | h | h
            · exact absurd h hab
            · exact absurd h heq
            · exact h
          right; simp [chars_le, hba]

theorem chars_le_trans :
    ∀ l m n : List Char, chars_le l m = true → chars_le m n = true → chars_le l n = true := by
  intro l
  induction l with
  | nil => intro m n _ _; rfl
  | cons a as ih =>
    intro m n h1 h2
    cases m with
    | nil => simp [chars_le] at h1
    | cons b bs =>
      cases n with
      | nil => simp [chars_le] at h2
      | cons c cs =>
        simp only [chars_le] at h1 h2 ⊢
        by_cases hab : a < b
        · by_cases hbc : b < c
          · simp [lt_trans hab hbc]
          · by_cases hbc2 : b = c
            · subst hbc2; simp [hab]
            · simp [hab, hbc, hbc2] at h2
        · by_cases hab2 : a = b
          · subst hab2
            by_cases hac : a < c
            · simp [hac]
            · by_cases hac2 : a = c
              · subst hac2
                simp [hac, hab] at h1 h2 ⊢
                exact ih bs cs h1 h2
              · simp [hac, hac2] at h2
          · simp [hab, hab2] at h1

instance : IsTotal String lex_le :=
  ⟨fun a b => chars_le_total a.data b.data⟩

instance : IsTrans String lex_le :=
  ⟨fun a b c h1 h2 => chars_le_trans a.data b.data c.data h1 h2⟩

theorem eq_line_join (ns : List String) (h : ns ≠ []) :
    join_sep "\n" (ns.map (fun n => n ++ "=")) ++ "\n" =
      String.join (ns.map (fun n => n ++ "=\n")) := by
  have hlit : ("=" : String) ++ "\n" = "=\n" := rfl
  induction ns with
  | nil => exact absurd rfl h
  | cons a t ih =>
    cases t with
    | nil =>
      show (a ++ "=") ++ "\n" = String.join [a ++ "=\n"]
      rw [str_join_cons, str_join_nil, String.append_empty, str_append_assoc, hlit]
    | cons b t2 =>
      show ((a ++ "=") ++ "\n" ++ join_sep "\n" ((b :: t2).map (fun n => n ++ "="))) ++ "\n" =
        String.join ((a ++ "=\n") :: (b :: t2).map (fun n => n ++ "=\n"))
      rw [str_join_cons, ← ih (by simp)]
      simp only [← hlit, str_append_assoc]

theorem generate_env_file_empty_iff (d : ScenarioData) :
    generate_env_file d = "" ↔ all_placeholder_names d = [] := by
  unfold generate_env_file sorted_strings
  constructor
  · intro h
    by_cases hall : all_placeholder_names d = []
    · exact hall
    · have hd : (all_placeholder_names d).dedup ≠ [] := by
        intro hdd
        exact hall ((List.dedup_eq_nil _).mp hdd)
      have hs : (all_placeholder_names d).dedup.insertionSort lex_le ≠ [] := by
        intro hss
        have hperm := List.perm_insertionSort lex_le (all_placeholder_names d).dedup
        rw [hss] at hperm
        exact hd hperm.symm.eq_nil
      rw [if_neg hs] at h
      cases hsort : (all_placeholder_names d).dedup.insertionSort lex_le with
      | nil => exact absurd hsort hs
      | cons x xs =>
        rw [hsort] at h
        have hdata := congrArg String.data h
        rw [String.data_append] at hdata
        simp at hdata
  · intro h
    rw [h]
    rfl

/-- C6: the secrets artifact is computed from the declared environment
values alone: it is the concatenation of one `NAME=` line (with trailing
newline) per list entry, where the list of names has no duplicates, is in
code-point lexicographic order, and contains a name exactly when it
occurs as a `$\x7bNAME\x7d` placeholder in some declared environment
value of some agent; the artifact is empty, and the secrets file is not
produced, exactly when no placeholder occurs; the spec's worked example
renders as `API_TOKEN=\nSECOND=\n`. -/
theorem C6_secrets_artifact :
    (∀ d : ScenarioData, ∃ ns : List String,
        generate_env_file d = String.join (ns.map (fun n => n ++ "=\n")) ∧
        ns.Nodup ∧ List.Sorted lex_le ns ∧
        (∀ n, n ∈ ns ↔ n ∈ all_placeholder_names d)) ∧
    (∀ d : ScenarioData, generate_env_file d = "" ↔ all_placeholder_names d = []) ∧
    (∀ d : ScenarioData, env_file_written d = false ↔ all_placeholder_names d = []) ∧
    generate_env_file
        ⟨⟨"g", none,
          [("TOKEN", "$\x7bAPI_TOKEN\x7d"), ("OTHER", "$\x7bAPI_TOKEN\x7d-$\x7bSECOND\x7d")],
          some "i", none⟩, []⟩ = "API_TOKEN=\nSECOND=\n" := by
  refine ⟨?_, generate_env_file_empty_iff, ?_, ?_⟩
  · intro d
    refine ⟨sorted_strings (all_placeholder_names d).dedup, ?_, ?_, ?_, ?_⟩
    · unfold generate_env_file
      by_cases hs : sorted_strings (all_placeholder_names d).dedup = []
      · rw [if_pos hs, hs]
        rfl
      · rw [if_neg hs]
        exact eq_line_join _ hs
    · exact (List.perm_insertionSort lex_le _).nodup_iff.mpr (List.nodup_dedup _)
    · exact List.sorted_insertionSort lex_le _
    · intro n
      unfold sorted_strings
      rw [List.mem_insertionSort, List.mem_dedup]
  · intro d
    rw [env_file_written]
    simp only [Bool.not_eq_false', beq_iff_eq]
    exact generate_env_file_empty_iff d
  · decide

theorem newline_join_sep (g : String → String) :
    ∀ l : List String, l ≠ [] →
      "\n" ++ join_sep "\n" (l.map g) = String.join (l.map (fun n => "\n" ++ g n)) := by
  intro l
  induction l with
  | nil => intro h; exact absurd rfl h
  | cons a t ih =>
    intro _
    cases t with
    | nil =>
      show "\n" ++ g a = String.join ["\n" ++ g a]
      rw [str_join_cons, str_join_nil, String.append_empty]
    | cons b t2 =>
      show "\n" ++ (g a ++ "\n" ++ join_sep "\n" ((b :: t2).map g)) =
        String.join (("\n" ++ g a) :: (b :: t2).map (fun n => "\n" ++ g n))
      rw [str_join_cons, ← ih (by simp)]
      simp only [str_append_assoc]

theorem format_depends_on_join (services : List String) :
    format_depends_on services =
      String.join (services.map (fun n => "\n" ++ depends_entry n)) := by
  unfold format_depends_on
  cases services with
  | nil => rfl
  | cons a t =>
    rw [if_neg (by simp)]
    exact newline_join_sep depends_entry (a :: t) (by simp)

/-- C7: the orchestration manifest's dependency edges are exactly: the
`agentbeats-client` aggregator depends on `green-agent` and on every
participant (in declaration order), the green agent depends on every
participant, and every rendered edge is one `depends_entry` carrying the
`service_healthy` (not merely started) condition; the participant service
template contains no `depends_on` key in any of its fixed literal pieces,
so participants have no dependencies. -/
theorem C7_dependency_wiring :
    (∀ d : ScenarioData, compose_green_depends d =
        String.join ((d.participants.map (fun p => p.name)).map
          (fun n => "\n" ++ depends_entry n))) ∧
    (∀ d : ScenarioData, compose_client_depends d =
        String.join ((green_service_name :: d.participants.map (fun p => p.name)).map
          (fun n => "\n" ++ depends_entry n))) ∧
    (∀ s : String,
        depends_entry s = "      " ++ s ++ ":\n        condition: service_healthy") ∧
    ([pseg_after_name, pseg_container, pseg_command, pseg_env, pseg_health, pseg_tail,
      "  ", "\n", "    pull_policy: never\n", "    platform: linux/amd64\n"].all
        (fun s => !(contains_sub "depends_on".data s.data)) = true) := by
  refine ⟨?_, ?_, fun s => rfl, by decide⟩
  · intro d
    rw [compose_green_depends, format_depends_on_join]
  · intro d
    rw [compose_client_depends, format_depends_on_join]

theorem filter_dict_set (env : List (String × String)) (k v : String) :
    (dict_set env k v).filter (fun kv => !(kv.1 == k)) =
      env.filter (fun kv => !(kv.1 == k)) := by
  induction env with
  | nil => simp [dict_set]
  | cons kv t ih =>
    by_cases hk : kv.1 == k
    · simp [dict_set, hk, List.filter_cons]
    · simp only [Bool.not_eq_true] at hk
      simp [dict_set, hk, List.filter_cons, ih]

theorem dict_getD_dict_set_self (env : List (String × String)) (k v dflt : String) :
    dict_getD (dict_set env k v) k dflt = v := by
  induction env with
  | nil => simp [dict_set, dict_getD]
  | cons kv t ih =>
    by_cases hk : kv.1 == k
    · simp [dict_set, hk, dict_getD]
    · simp only [Bool.not_eq_true] at hk
      simp only [dict_set, hk, Bool.false_eq_true, if_false]
      unfold dict_getD
      rw [List.find?_cons_of_neg _ (by simp [hk])]
      exact ih

/-- C8: rendering mutates nothing: the scenario that comes out of the
rendering phase is the parsed scenario itself, so every agent's declared
environment (every key and every value) is exactly what was parsed; the
self-address variable exists only in the derived overlay, which holds
`CARD_URL` mapped to the injected value and agrees with the declared
environment on every other key. -/
theorem C8_no_declared_env_mutation :
    (∀ d : ScenarioData, (render_artifacts d).2 = d) ∧
    (∀ (env : List (String × String)) (v : String),
        (dict_set env "CARD_URL" v).filter (fun kv => !(kv.1 == "CARD_URL")) =
          env.filter (fun kv => !(kv.1 == "CARD_URL"))) ∧
    (∀ (env : List (String × String)) (v : String),
        dict_getD (dict_set env "CARD_URL" v) "CARD_URL" "" = v) ∧
    (∀ g : Agent, green_env_overlay g = dict_set g.env "CARD_URL" green_self_url) ∧
    (∀ p : Agent, participant_env_overlay p =
        dict_set p.env "CARD_URL" ("http://" ++ p.name ++ ":" ++ toString DEFAULT_PORT)) :=
  ⟨fun _ => rfl,
   fun env v => filter_dict_set env "CARD_URL" v,
   fun env v => dict_getD_dict_set_self env "CARD_URL" v "",
   fun _ => rfl, fun _ => rfl⟩

theorem pass_fold_spec (m : List (String × ℚ)) (dd : ℚ) :
    ∀ (rs : List TaskResult) (a b : ℚ),
      rs.foldl (pass_step m dd) (a, b) =
        (a + ((rs.filter passed).length : ℚ),
         b + ((rs.filter passed).map (difficulty_of m dd)).sum) := by
  intro rs
  induction rs with
  | nil => intro a b; simp
  | cons r t ih =>
    intro a b
    by_cases hr : 0 < r.reward.getD 0
    · have hp : passed r = true := by simp [passed, hr]
      rw [List.foldl_cons]
      rw [show pass_step m dd (a, b) r =
        (a + 1, b + dict_getD m (r.task_id.getD "") dd) from by simp [pass_step, hr]]
      rw [ih]
      simp [List.filter_cons, hp, difficulty_of]
      constructor
      · ring
      · ring
    · have hp : passed r = false := by simp [passed, hr]
      rw [List.foldl_cons]
      rw [show pass_step m dd (a, b) r = (a, b) from by simp [pass_step, hr]]
      rw [ih]
      simp [List.filter_cons, hp]

/-- C9: whenever at least one task outcome has a strictly positive
reward, the recomputed metric is the arithmetic mean — sum divided by
count — of the difficulties of exactly the positively-rewarded outcomes,
each difficulty looked up by task id with default `1/2` when unlisted
(numeric values modelled as exact rationals); the spec's worked example
evaluates to `4/5 = 0.8`. -/
theorem C9_avg_difficulty_mean :
    (∀ (rs : List TaskResult) (m : List (String × ℚ)),
        rs.filter passed ≠ [] →
        compute_avg_difficulty rs m (1/2) =
          ((rs.filter passed).map (difficulty_of m (1/2))).sum /
            ((rs.filter passed).length : ℚ)) ∧
    compute_avg_difficulty [⟨some "1", some 1⟩, ⟨some "2", some 0⟩] [("1", 4/5)] (1/2) = 4/5 := by
  constructor
  · intro rs m h
    unfold compute_avg_difficulty
    rw [pass_fold_spec]
    have hlen : (0 : ℚ) < ((rs.filter passed).length : ℚ) := by
      have : 0 < (rs.filter passed).length := List.length_pos.mpr h
      exact_mod_cast this
    simp only [zero_add]
    rw [if_pos hlen]
  · norm_num [compute_avg_difficulty, pass_step, dict_getD, List.foldl, List.find?]

/-- C9 witness: one passed task with listed difficulty `4/5`. -/
theorem C9_avg_difficulty_mean_witness :
    compute_avg_difficulty [⟨some "1", some 1⟩] [("1", (4 : ℚ)/5)] (1/2) =
      (((([⟨some "1", some 1⟩] : List TaskResult).filter passed).map
          (difficulty_of [("1", (4 : ℚ)/5)] (1/2))).sum /
        ((([⟨some "1", some 1⟩] : List TaskResult).filter passed).length : ℚ)) :=
  C9_avg_difficulty_mean.1 [⟨some "1", some 1⟩] [("1", (4 : ℚ)/5)] (by decide)

/-- C10: when no task outcome has a strictly positive reward — including
the empty outcome list — the accumulated weight is `0`, the
positive-denominator guard fails, and `compute_avg_difficulty` returns
`0` instead of dividing by zero. -/
theorem C10_no_pass_returns_zero :
    ∀ (rs : List TaskResult) (m : List (String × ℚ)) (dd : ℚ),
      rs.filter passed = [] →
      (rs.foldl (pass_step m dd) (0, 0)).1 = 0 ∧
      ¬ (0 < (rs.foldl (pass_step m dd) (0, 0)).1) ∧
      compute_avg_difficulty rs m dd = 0 := by
  intro rs m dd h
  have hf : rs.foldl (pass_step m dd) (0, 0) = ((0 : ℚ), (0 : ℚ)) := by
    rw [pass_fold_spec m dd rs 0 0, h]
    norm_num
  refine ⟨by rw [hf], by rw [hf]; simp, ?_⟩
  unfold compute_avg_difficulty
  rw [hf]
  simp

/-- C10 witness: a single zero-reward outcome yields `0`. -/
theorem C10_no_pass_returns_zero_witness :
    compute_avg_difficulty [⟨some "2", some 0⟩] [] (1/2) = 0 :=
  (C10_no_pass_returns_zero [⟨some "2", some 0⟩] [] (1/2) (by decide)).2.2
